import Mathlib

/-!
# Verification of pod-cleaner (decision-and-orchestration core)

Shallow embedding of the core of the `pod-cleaner` repository:

* `src/notifications.py` — `NotificationManager`: `send_notification`
  (Notifier Gate with cooldown), `check_pod_health_after_restart`
  (Post-Restart Monitor), `_is_pod_healthy` (health predicate);
* `src/pod_cleaner.py` — `PodCleaner`: `should_clean_pod` (classifier with
  decision cache), `clean_pod`, `run_cleanup` (cycle orchestrator with
  single-flight guard), `_get_pods_optimized`, `_clean_old_cache_entries`;
* `src/kubernetes_client.py` — `KubernetesClient.list_all_pods`,
  `KubernetesClient.delete_pod` (collaborator, modelled as an oracle of
  call results).

Conventions of the embedding:

* Timestamps (`time.time()`, `datetime.now()`) are `Nat` seconds, passed
  explicitly as a `now` argument; all reads of the clock inside one call
  (or one cleanup cycle) are modelled as the same instant.  `Nat`
  subtraction truncates at 0 where Python would produce a negative
  number; since the TTL and the cooldown are positive, the comparisons
  `age < ttl` and `age > ttl` decide identically under both readings.
* Python exceptions become `Except String _` results from the
  collaborator oracle; each `try/except` of the source is an explicit
  `match` on them.  A code region that the source wraps in a cycle-level
  `try/except/finally` is modelled as a function returning
  `State × Option Outcome`, where `none` stands for an escaped exception.
* Python `None`-or-list attributes (`init_container_statuses`,
  `container_statuses`) are `Option (List _)`; truthiness tests on them
  (`if pod.status.container_statuses:`) match on `none`/`[]`.
* Side effects visible only through logging are reified as result data:
  the `CycleOutcome` constructor records which exit path `run_cleanup`
  took (the skip log line, the summary log line, or the error log line),
  and the monitor result records how many pod fetches and notification
  calls were made.  The Python functions themselves return `None` or a
  plain `bool`.
* The non-mock path is modelled (`MOCK_MODE=false`, `self.v1` present),
  which is the default configuration.
-/

/-! ## Pod data model (the attributes the core reads) -/

/-- `V1ContainerStateTerminated` — only `exit_code` is read. -/
structure ContainerStateTerminated where
  exit_code : Int
deriving DecidableEq, Repr

/-- `V1ContainerStateWaiting` — only `reason` is read. -/
structure ContainerStateWaiting where
  reason : String
deriving DecidableEq, Repr

/-- `V1ContainerState`: `running` models the truthiness of the
`state.running` object (present or not); `waiting` and `terminated` are
present-or-absent sub-objects. -/
structure ContainerState where
  running : Bool
  waiting : Option ContainerStateWaiting
  terminated : Option ContainerStateTerminated
deriving DecidableEq, Repr

/-- `V1ContainerStatus` — the fields read are `ready` and `state`. -/
structure ContainerStatus where
  ready : Bool
  state : Option ContainerState
deriving DecidableEq, Repr

/-- `pod.metadata` — `ns` stands for the Python attribute `namespace`
(a reserved word in Lean). -/
structure PodMetadata where
  ns : String
  name : String
deriving DecidableEq, Repr

/-- `pod.status` — phase string plus the two status lists, which may be
`None` in the API object. -/
structure PodStatus where
  phase : String
  init_container_statuses : Option (List ContainerStatus)
  container_statuses : Option (List ContainerStatus)
deriving DecidableEq, Repr

/-- A pod as the core reads it. -/
structure Pod where
  metadata : PodMetadata
  status : PodStatus
deriving DecidableEq, Repr

/-! ## Notifier Gate (`NotificationManager.send_notification`) -/

/-- `self.notification_cooldown = timedelta(minutes=30)`, in seconds. -/
def notification_cooldown : Nat := 30 * 60

/-- Mutable state of `NotificationManager`: `self.sent_notifications`,
a dict from `"namespace/name"` to the timestamp of the last recorded
notification. -/
structure NotifState where
  sent_notifications : List (String × Nat)
deriving DecidableEq, Repr

/-- Result of one `send_notification` call: the returned `bool`, plus a
reification of whether the call reached the transport
(`_send_prometheus_alert` was invoked). -/
structure NotifResult where
  sent : Bool
  transport_attempted : Bool
deriving DecidableEq, Repr

/-- `NotificationManager.send_notification` (src/notifications.py:16-30).

The cooldown test reads `self.sent_notifications.get(pod_key)`; when a
recorded time exists and `now - last < cooldown` the call returns `False`
without touching the transport.  Otherwise `_send_prometheus_alert` is
attempted; every failure inside it falls back to
`_send_log_notification`, which returns `True`, so the non-suppressed
path always reports `True`.  Note that no branch of the source ever
writes to `self.sent_notifications`: the returned state is unchanged. -/
def send_notification (st : NotifState) (ns name : String) (now : Nat) :
    NotifResult × NotifState :=
  let pod_key := ns ++ "/" ++ name
  match st.sent_notifications.find? (fun e => e.1 == pod_key) with
  | some (_, last) =>
      if now - last < notification_cooldown then
        (⟨false, false⟩, st)
      else
        (⟨true, true⟩, st)
  | none => (⟨true, true⟩, st)

/-! ## Health predicate (`NotificationManager._is_pod_healthy`) -/

/-- `NotificationManager._is_pod_healthy` (src/notifications.py:169-182).
Phase must be `"Running"`; then, when the container-status list is truthy
(non-`None` and non-empty), every status must be `ready` with no `waiting`
or `terminated` state.  An absent or empty list skips the loop and the
function returns `True`. -/
def is_pod_healthy (pod : Pod) : Bool :=
  if pod.status.phase != "Running" then false
  else
    (pod.status.container_statuses.getD []).all fun cs =>
      cs.ready &&
        !(match cs.state with
          | some st => st.waiting.isSome || st.terminated.isSome
          | none => false)

/-! ## Post-Restart Monitor (`check_pod_health_after_restart`) -/

/-- The `for check_count in range(max_checks)` loop of
`check_pod_health_after_restart` (src/notifications.py:134-154).
`get_pod idx` is the oracle for the `idx`-th fetch of the pod
(`_get_pod` returns `None` both for a missing pod and for a fetch
error, which it catches).  Returns `(found healthy?, fetches made)`:
a `none` fetch logs and `continue`s; a healthy pod returns
immediately; an unhealthy pod logs and proceeds to the next
iteration. -/
def monitor_checks (get_pod : Nat → Option Pod) : Nat → Nat → Bool × Nat
  | _, 0 => (false, 0)
  | idx, n + 1 =>
    match get_pod idx with
    | none =>
        let r := monitor_checks get_pod (idx + 1) n
        (r.1, r.2 + 1)
    | some pod =>
        if is_pod_healthy pod then (true, 1)
        else
          let r := monitor_checks get_pod (idx + 1) n
          (r.1, r.2 + 1)

/-- `NotificationManager.check_pod_health_after_restart`
(src/notifications.py:130-159), with the sleep dropped (time does not
affect the control flow).  Result: `(healthy, checks made, notifications
sent)`.  When the loop falls through without observing a healthy pod the
source calls `send_notification` once and returns `False`. -/
def check_pod_health_after_restart (get_pod : Nat → Option Pod)
    (max_checks : Nat) : Bool × Nat × Nat :=
  let r := monitor_checks get_pod 0 max_checks
  if r.1 then (true, r.2, 0) else (false, r.2, 1)

/-! ## Kubernetes collaborator (`KubernetesClient`, non-mock path) -/

/-- Oracle for the cluster-API calls one cleanup cycle makes:
the field-selector listing `v1.list_pod_for_all_namespaces(...,
field_selector="status.phase!=Running")`, the plain listing
`v1.list_pod_for_all_namespaces(watch=False)` used by `list_all_pods`,
and `v1.delete_namespaced_pod`.  An `Except.error` is a raised
exception. -/
structure K8s where
  filtered_list : Except String (List Pod)
  full_list : Except String (List Pod)
  delete_call : String → String → Except String Unit

/-- `KubernetesClient.list_all_pods` (src/kubernetes_client.py:72-83),
non-mock path: a listing failure is caught and an empty list returned. -/
def list_all_pods (k : K8s) : List Pod :=
  match k.full_list with
  | .ok pods => pods
  | .error _ => []

/-- `KubernetesClient.delete_pod` (src/kubernetes_client.py:85-101),
non-mock path: `True` on success, a raised exception is caught and
`False` returned. -/
def delete_pod (k : K8s) (name ns : String) : Bool :=
  match k.delete_call name ns with
  | .ok _ => true
  | .error _ => false

/-! ## Cleaner state and decision cache (`PodCleaner`) -/

/-- One `self.pod_cache` entry: `cache_key -> (cached_result,
cached_time)`. -/
structure CacheEntry where
  key : String
  decision : Bool
  stored_at : Nat
deriving DecidableEq, Repr

/-- Mutable state of `PodCleaner` (src/pod_cleaner.py:12-25), restricted
to the fields the claims are about.  `pod_cache` is the dict as an
association list with unique keys (writes replace). -/
structure CleanerState where
  pod_cache : List CacheEntry
  cleaned_pods : List (String × String × String × Nat)
  is_running : Bool
  cache_ttl : Nat
deriving DecidableEq, Repr

/-- Fresh `PodCleaner` state: empty cache, no cleaned pods, not running,
`self.cache_ttl = 300`. -/
def init_cleaner : CleanerState :=
  { pod_cache := [], cleaned_pods := [], is_running := false,
    cache_ttl := 300 }

/-- The cache-consultation prefix of `should_clean_pod`
(src/pod_cleaner.py:31-35): if the key is present and
`time.time() - cached_time < self.cache_ttl`, the cached decision is
used; a stale or missing entry yields `none` and the decision is
recomputed. -/
def cache_lookup (cache : List CacheEntry) (key : String) (now ttl : Nat) :
    Option Bool :=
  match cache.find? (fun e => e.key == key) with
  | some e => if now - e.stored_at < ttl then some e.decision else none
  | none => none

/-- `self.pod_cache[cache_key] = (result, time.time())`: dict assignment,
replacing any previous entry for the key. -/
def cache_store (s : CleanerState) (key : String) (v : Bool) (now : Nat) :
    CleanerState :=
  { s with pod_cache :=
      ⟨key, v, now⟩ :: s.pod_cache.filter (fun e => !(e.key == key)) }

/-- The `phase == 'Pending'` init-container loop of `should_clean_pod`
(src/pod_cleaner.py:52-61): the pod is spared (`return False`) as soon
as some init-container status has a truthy `state` whose `running` is
truthy, or whose `terminated` is present with a non-zero `exit_code`. -/
def pending_spared_by_init (l : List ContainerStatus) : Bool :=
  l.any fun ist =>
    match ist.state with
    | some st =>
        st.running ||
          (match st.terminated with
           | some t => !(t.exit_code == 0)
           | none => false)
    | none => false

/-- The `phase == 'Pending'` container-creating loop of
`should_clean_pod` (src/pod_cleaner.py:64-69): the pod is spared when
some container status has a `state` with a `waiting` object whose
`reason` is `'PodInitializing'` or `'ContainerCreating'`. -/
def pending_spared_by_waiting (l : List ContainerStatus) : Bool :=
  l.any fun cs =>
    match cs.state with
    | some st =>
        match st.waiting with
        | some w =>
            w.reason == "PodInitializing" || w.reason == "ContainerCreating"
        | none => false
    | none => false

/-- `PodCleaner.should_clean_pod` (src/pod_cleaner.py:27-77): cache
check first; then `kube-system` namespaces and `Running` pods are never
cleaned; `Pending` pods are spared only on evidence of ongoing
initialization; every other phase is cleaned.  Each computed decision is
written to the cache with the current time. -/
def should_clean_pod (s : CleanerState) (pod : Pod) (now : Nat) :
    Bool × CleanerState :=
  let cache_key := pod.metadata.ns ++ "/" ++ pod.metadata.name
  match cache_lookup s.pod_cache cache_key now s.cache_ttl with
  | some cached => (cached, s)
  | none =>
    if pod.metadata.ns == "kube-system" then
      (false, cache_store s cache_key false now)
    else if pod.status.phase == "Running" then
      (false, cache_store s cache_key false now)
    else if pod.status.phase == "Pending" then
      if pending_spared_by_init (pod.status.init_container_statuses.getD []) then
        (false, cache_store s cache_key false now)
      else if pending_spared_by_waiting (pod.status.container_statuses.getD []) then
        (false, cache_store s cache_key false now)
      else
        (true, cache_store s cache_key true now)
    else
      (true, cache_store s cache_key true now)

/-- `PodCleaner.clean_pod` (src/pod_cleaner.py:79-110): build the
`pod_info` record, delete via the client, and on success append the
record to `self.cleaned_pods` and return `True` (the spawned background
health monitor has no effect on the cleaner's state).  `delete_pod`
itself never raises (it catches), so the surrounding `try/except` of
`clean_pod` is inert. -/
def clean_pod (k : K8s) (s : CleanerState) (pod : Pod) (now : Nat) :
    Bool × CleanerState :=
  let pod_info := (pod.metadata.ns, pod.metadata.name, pod.status.phase, now)
  if delete_pod k pod.metadata.name pod.metadata.ns then
    (true, { s with cleaned_pods := s.cleaned_pods ++ [pod_info] })
  else
    (false, s)

/-! ## Cleanup cycle (`PodCleaner.run_cleanup`) -/

/-- `PodCleaner._get_pods_optimized` (src/pod_cleaner.py:183-198): try
the field-selector listing; on any exception fall back to
`list_all_pods` (which itself never raises). -/
def get_pods_optimized (k : K8s) : List Pod :=
  match k.filtered_list with
  | .ok pods => pods
  | .error _ => list_all_pods k

/-- `PodCleaner._clean_old_cache_entries` (src/pod_cleaner.py:200-210):
delete every cache entry with `current_time - timestamp > self.cache_ttl`
(strict comparison). -/
def clean_old_cache_entries (s : CleanerState) (now : Nat) : CleanerState :=
  { s with pod_cache :=
      s.pod_cache.filter (fun e => !(now - e.stored_at > s.cache_ttl)) }

/-- Which exit path `run_cleanup` took, as witnessed by its log output:
`skipped` is the early return logging "Previous run still in progress,
skipping..."; `completed attempted cleaned` is the normal path, where
`attempted` is the candidate count logged as "Checking N pods (excluding
kube-system)" and `cleaned` the `cleaned_count` of the summary;
`errored` is the `except` branch logging "Error during cleanup cycle".
The Python function itself returns `None` on every path. -/
inductive CycleOutcome
  | skipped
  | completed (attempted cleaned : Nat)
  | errored
deriving DecidableEq, Repr

/-- The body of the cycle-level `try` of `run_cleanup`
(src/pod_cleaner.py:143-175), non-mock path: fetch candidates, filter
out `kube-system`, classify each candidate through the cache and clean
the cleanable ones counting successes, then sweep expired cache
entries.  `some outcome` is a normal completion; `none` would be an
escaped exception (no collaborator failure reaches this level, so the
body always completes). -/
def run_cleanup_body (k : K8s) (now : Nat) (s : CleanerState) :
    CleanerState × Option CycleOutcome :=
  let pods := get_pods_optimized k
  let target_pods := pods.filter (fun p => !(p.metadata.ns == "kube-system"))
  let step := fun (acc : CleanerState × Nat) (pod : Pod) =>
    let r := should_clean_pod acc.1 pod now
    if r.1 then
      let c := clean_pod k r.2 pod now
      (c.2, if c.1 then acc.2 + 1 else acc.2)
    else
      (r.2, acc.2)
  let res := target_pods.foldl step (s, 0)
  let s2 := clean_old_cache_entries res.1 now
  (s2, some (.completed target_pods.length res.2))

/-- The guard-and-exception skeleton of `run_cleanup`
(src/pod_cleaner.py:133-181), abstracted over the `try`-body: under the
lock, a cycle already in progress returns at once; otherwise the flag is
set and `self.cleaned_pods` reset, the body runs, any exception it
raises is caught at this boundary (`errored`), and the `finally` clears
the flag on every path. -/
def run_cleanup_guarded
    (body : CleanerState → CleanerState × Option CycleOutcome)
    (s : CleanerState) : CleanerState × CycleOutcome :=
  if s.is_running then
    (s, .skipped)
  else
    let s1 := { s with is_running := true, cleaned_pods := [] }
    match body s1 with
    | (s2, some out) => ({ s2 with is_running := false }, out)
    | (s2, none) => ({ s2 with is_running := false }, .errored)

/-- `PodCleaner.run_cleanup` (src/pod_cleaner.py:133-181): the guarded
skeleton applied to the real cycle body. -/
def run_cleanup (k : K8s) (now : Nat) (s : CleanerState) :
    CleanerState × CycleOutcome :=
  run_cleanup_guarded (run_cleanup_body k now) s

/-- Attempted-pod count carried by an outcome: zero on the skip and
error paths, the logged candidate count on the normal path. -/
def CycleOutcome.attempted : CycleOutcome → Nat
  | .skipped => 0
  | .completed a _ => a
  | .errored => 0

/-! ## Fixtures -/

/-- A running pod with no container statuses. -/
def pod_running : Pod := ⟨⟨"default", "pod-running"⟩, ⟨"Running", none, none⟩⟩

/-- A failed pod. -/
def pod_failed : Pod := ⟨⟨"default", "pod-failed"⟩, ⟨"Failed", none, none⟩⟩

/-- A pending pod with no init-container states and no waiting reasons. -/
def pod_pending : Pod := ⟨⟨"default", "pod-pending"⟩, ⟨"Pending", none, none⟩⟩

/-- A succeeded pod. -/
def pod_succeeded : Pod :=
  ⟨⟨"default", "pod-succeeded"⟩, ⟨"Succeeded", none, none⟩⟩

/-- A pod in phase Unknown. -/
def pod_unknown : Pod := ⟨⟨"default", "pod-unknown"⟩, ⟨"Unknown", none, none⟩⟩

/-- A failed pod in the `kube-public` namespace. -/
def pod_kube_public : Pod :=
  ⟨⟨"kube-public", "cert-refresher"⟩, ⟨"Failed", none, none⟩⟩

/-- A pod that is stuck: phase Pending, hence never healthy. -/
def pod_stuck : Pod := ⟨⟨"default", "web"⟩, ⟨"Pending", none, none⟩⟩

/-- Collaborator for end-to-end scenario A: the filtered listing
returns the five-pod candidate set and every delete succeeds. -/
def scenario_a_k8s : K8s :=
  { filtered_list :=
      .ok [pod_running, pod_failed, pod_pending, pod_succeeded, pod_unknown],
    full_list := .ok [],
    delete_call := fun _ _ => .ok () }

/-! ## Helper lemmas -/

/-- Shifting the fetch oracle by one is the same as starting the loop at
the next index. -/
theorem monitor_checks_shift (g : Nat → Option Pod) :
    ∀ (n i : Nat),
      monitor_checks (fun j => g (j + 1)) i n = monitor_checks g (i + 1) n := by
  intro n
  induction n with
  | zero => intro i; rfl
  | succ m ih =>
    intro i
    simp only [monitor_checks]
    cases h : g (i + 1) with
    | none => simp [ih]
    | some pod => cases hp : is_pod_healthy pod <;> simp [hp, ih]

/-- The monitor loop makes at most as many fetches as it has iterations
left. -/
theorem monitor_checks_le (g : Nat → Option Pod) :
    ∀ (n i : Nat), (monitor_checks g i n).2 ≤ n := by
  intro n
  induction n with
  | zero => intro i; exact Nat.le_refl 0
  | succ m ih =>
    intro i
    simp only [monitor_checks]
    cases g i with
    | none => exact Nat.succ_le_succ (ih (i + 1))
    | some pod =>
      cases hp : is_pod_healthy pod with
      | true => simp [hp]
      | false => simp only [hp, if_false]; exact Nat.succ_le_succ (ih (i + 1))

/-- When no fetch ever produces a healthy pod, the loop runs all its
iterations and reports failure. -/
theorem monitor_checks_never_healthy (g : Nat → Option Pod)
    (h : ∀ k p, g k = some p → is_pod_healthy p = false) :
    ∀ (n i : Nat), monitor_checks g i n = (false, n) := by
  intro n
  induction n with
  | zero => intro i; rfl
  | succ m ih =>
    intro i
    simp only [monitor_checks]
    cases hg : g i with
    | none => simp [ih]
    | some pod => simp [h i pod hg, ih]

/-- The releasing `finally` of `run_cleanup`: whenever a cycle is
started, the guard is clear again on return, whatever the body did. -/
theorem guard_released_aux
    (body : CleanerState → CleanerState × Option CycleOutcome)
    (s : CleanerState) (h : s.is_running = false) :
    ((run_cleanup_guarded body s).1).is_running = false := by
  unfold run_cleanup_guarded
  rw [h]
  cases hb : body { s with is_running := true, cleaned_pods := [] } with
  | mk s2 o => cases o <;> simp [hb]

/-! ## Claim C1 — Notifier cooldown (code bug: `lastSentAt` never recorded) -/

/-- C1: the claim says a successful send records `lastSentAt`, so a
second `Notify` for the same identity within the 30-minute cooldown is
suppressed and returns `false` without contacting the transport.  The
source never writes `self.sent_notifications`, so the state after a
successful send is unchanged and a second call 60 seconds later — well
inside the cooldown — attempts the transport again and returns `true`. -/
theorem send_notification_cooldown_never_recorded :
    (send_notification ⟨[]⟩ "default" "web" 0).1 = ⟨true, true⟩ ∧
    (send_notification ⟨[]⟩ "default" "web" 0).2 = ⟨[]⟩ ∧
    (send_notification (send_notification ⟨[]⟩ "default" "web" 0).2
        "default" "web" 60).1 = ⟨true, true⟩ ∧
    60 - 0 < notification_cooldown := by
  decide

/-! ## Claim C3 — excluded namespaces (only `kube-system` is excluded) -/

/-- C3 counterexample: a `Failed` pod in `kube-public` — one of the
namespaces the claim says the classifier spares — is classified as
cleanable by `should_clean_pod`. -/
theorem kube_public_pod_cleanable :
    (should_clean_pod init_cleaner pod_kube_public 0).1 = true := by
  decide

/-- C3 (amended): only `kube-system` is excluded by the classifier: for
every pod in namespace `kube-system` whose decision is not served from
the cache, `should_clean_pod` returns `false` (pod kept) regardless of
phase and container states; `kube-public` and `kube-node-lease` receive
no such exemption. -/
theorem kube_system_always_spared (s : CleanerState) (pod : Pod) (now : Nat)
    (h1 : pod.metadata.ns = "kube-system")
    (h2 : cache_lookup s.pod_cache (pod.metadata.ns ++ "/" ++ pod.metadata.name)
        now s.cache_ttl = none) :
    (should_clean_pod s pod now).1 = false := by
  rw [h1] at h2
  simp at h2
  simp [should_clean_pod, h1, h2]

/-- C3 witness: a `Failed` pod in `kube-system`, empty cache. -/
theorem kube_system_always_spared_witness :
    (should_clean_pod init_cleaner
        ⟨⟨"kube-system", "coredns"⟩, ⟨"Failed", none, none⟩⟩ 0).1 = false :=
  kube_system_always_spared init_cleaner
    ⟨⟨"kube-system", "coredns"⟩, ⟨"Failed", none, none⟩⟩ 0 rfl rfl

/-! ## Claim C5 — cache sweep vs lookup TTL check -/

/-- C5 counterexample: an entry of age exactly `cache_ttl` (stored at 0,
swept at 300 with TTL 300).  `cache_lookup` at that instant treats the
entry as expired (`none`), yet `_clean_old_cache_entries` keeps it — the
sweep's strict `>` disagrees with lookup's `<` at the boundary, so the
sweep does not remove every entry lookup would treat as expired. -/
theorem sweep_keeps_lookup_expired_entry :
    cache_lookup [⟨"kube-system/p", true, 0⟩] "kube-system/p" 300 300 = none ∧
    (clean_old_cache_entries
        { pod_cache := [⟨"kube-system/p", true, 0⟩], cleaned_pods := [],
          is_running := false, cache_ttl := 300 } 300).pod_cache =
      [⟨"kube-system/p", true, 0⟩] := by
  decide

/-- C5 (amended): the sweep removes a cache entry iff its age strictly
exceeds the TTL.  Removal implies the entry was expired for lookup, but
not conversely: an entry aged exactly the TTL is expired for lookup yet
kept by the sweep.  Every entry of age at most the TTL — in particular
one written during the current cycle, whose age at sweep time is below
the TTL — is kept. -/
theorem sweep_removes_iff_strictly_older (s : CleanerState) (now : Nat)
    (e : CacheEntry) (he : e ∈ s.pod_cache) :
    (e ∈ (clean_old_cache_entries s now).pod_cache ↔
      ¬(now - e.stored_at > s.cache_ttl)) ∧
    (now - e.stored_at ≤ s.cache_ttl →
      e ∈ (clean_old_cache_entries s now).pod_cache) := by
  have hmem : e ∈ (clean_old_cache_entries s now).pod_cache ↔
      ¬(now - e.stored_at > s.cache_ttl) := by
    simp [clean_old_cache_entries, List.mem_filter, he]
  exact ⟨hmem, fun h => hmem.mpr (by omega)⟩

/-- C5 witness: a young entry (age 100, TTL 300) survives the sweep. -/
theorem sweep_removes_iff_strictly_older_witness :
    (⟨"default/w", true, 0⟩ : CacheEntry) ∈
      (clean_old_cache_entries
        { pod_cache := [⟨"default/w", true, 0⟩], cleaned_pods := [],
          is_running := false, cache_ttl := 300 } 100).pod_cache :=
  (sweep_removes_iff_strictly_older _ 100 _ (by decide)).2 (by decide)

/-! ## Claim C4 — not-found checks still consume the check budget -/

/-- C4 counterexample: a monitor with `max_checks = 3` whose every fetch
reports the pod as not found performs all 3 checks, exhausts its budget,
and sends the failure notification — the claim says not-found checks do
not use up the budget and such a monitor does not reach Exhausted. -/
theorem not_found_only_monitor_exhausts :
    check_pod_health_after_restart (fun _ => none) 3 = (false, 3, 1) := by
  decide

/-- C4 (amended): a not-found check is inconclusive in that it neither
ends the monitor as Healthy nor as an immediate failure — the outcome
and notification count are those of the monitor continuing with the
remaining checks — but it does consume one of the `max_checks`
iterations; consequently a monitor that observes only not-found results
performs all `max_checks` checks, reaches Exhausted and notifies once. -/
theorem not_found_consumes_check (g : Nat → Option Pod) (n : Nat)
    (h : g 0 = none) :
    (check_pod_health_after_restart g (n + 1)).1 =
      (check_pod_health_after_restart (fun i => g (i + 1)) n).1 ∧
    (check_pod_health_after_restart g (n + 1)).2.1 =
      (check_pod_health_after_restart (fun i => g (i + 1)) n).2.1 + 1 ∧
    (check_pod_health_after_restart g (n + 1)).2.2 =
      (check_pod_health_after_restart (fun i => g (i + 1)) n).2.2 ∧
    ∀ m, check_pod_health_after_restart (fun _ => (none : Option Pod)) m =
      (false, m, 1) := by
  have hr : monitor_checks g 0 (n + 1) =
      ((monitor_checks (fun i => g (i + 1)) 0 n).1,
       (monitor_checks (fun i => g (i + 1)) 0 n).2 + 1) := by
    simp only [monitor_checks, h]
    rw [monitor_checks_shift]
  have hnone : ∀ m, check_pod_health_after_restart
      (fun _ => (none : Option Pod)) m = (false, m, 1) := by
    intro m
    unfold check_pod_health_after_restart
    rw [monitor_checks_never_healthy (fun _ => none) (by intro k p hp; cases hp) m 0]
    rfl
  refine ⟨?_, ?_, ?_, hnone⟩ <;>
    · unfold check_pod_health_after_restart
      rw [hr]
      cases hb : (monitor_checks (fun i => g (i + 1)) 0 n).1 <;> simp [hb]

/-- C4 witness: the shift law at `g = (fun _ => none)`, `n = 2`. -/
theorem not_found_consumes_check_witness :
    (check_pod_health_after_restart (fun _ => (none : Option Pod)) 3).2.1 =
      (check_pod_health_after_restart (fun i =>
        (fun _ => (none : Option Pod)) (i + 1)) 2).2.1 + 1 ∧
    check_pod_health_after_restart (fun _ => (none : Option Pod)) 5 =
      (false, 5, 1) :=
  ⟨(not_found_consumes_check (fun _ => none) 2 rfl).2.1,
   (not_found_consumes_check (fun _ => none) 2 rfl).2.2.2 5⟩

/-! ## Claim C2 — single-flight skip -/

/-- C2: calling `run_cleanup` while a cycle is in progress returns at
once with the skip outcome and zero attempted pods, the cleaner state
untouched; the result holds for every collaborator, so no listing,
classification, or deletion is performed (and the embedding is a total
function, so the caller is never blocked). -/
theorem run_cleanup_skips_when_running (k : K8s) (now : Nat)
    (s : CleanerState) (h : s.is_running = true) :
    run_cleanup k now s = (s, .skipped) ∧
    ((run_cleanup k now s).2).attempted = 0 := by
  have heq : run_cleanup k now s = (s, .skipped) := by
    unfold run_cleanup run_cleanup_guarded
    simp [h]
  exact ⟨heq, by rw [heq]; rfl⟩

/-- C2 witness: a second cycle started under the guard set by a first. -/
theorem run_cleanup_skips_when_running_witness :
    run_cleanup scenario_a_k8s 100
        { init_cleaner with is_running := true } =
      ({ init_cleaner with is_running := true }, .skipped) :=
  (run_cleanup_skips_when_running scenario_a_k8s 100
    { init_cleaner with is_running := true } rfl).1

/-! ## Claim C6 — end-to-end scenario A -/

/-- C6: one cycle over five pods with phases Running, Failed,
Pending (no init states, no waiting reasons), Succeeded and Unknown,
none in an excluded namespace, every delete succeeding: 5 candidates are
checked, exactly 4 are cleaned (all but the Running one), and each
cleaned pod is recorded with the phase it had at deletion time. -/
theorem scenario_a_cleans_four :
    (run_cleanup scenario_a_k8s 100 init_cleaner).2 =
      .completed 5 4 ∧
    ((run_cleanup scenario_a_k8s 100 init_cleaner).1).cleaned_pods =
      [("default", "pod-failed", "Failed", 100),
       ("default", "pod-pending", "Pending", 100),
       ("default", "pod-succeeded", "Succeeded", 100),
       ("default", "pod-unknown", "Unknown", 100)] := by
  decide

/-! ## Claim C7 — guard released on every exit path -/

/-- C7: whenever `run_cleanup` starts a cycle (guard initially clear),
the guard is clear again on return, for every possible behaviour of the
cycle body — in particular when the body ends in an escaped exception,
which the cycle boundary turns into the `errored` outcome instead of
propagating; and so for the actual cycle body with any collaborator. -/
theorem run_cleanup_releases_guard
    (body : CleanerState → CleanerState × Option CycleOutcome)
    (s : CleanerState) (h : s.is_running = false) :
    ((run_cleanup_guarded body s).1).is_running = false ∧
    (∀ k now, ((run_cleanup k now s).1).is_running = false) ∧
    (∀ s2, body { s with is_running := true, cleaned_pods := [] } =
        (s2, none) →
      run_cleanup_guarded body s =
        ({ s2 with is_running := false }, .errored)) := by
  refine ⟨guard_released_aux body s h, ?_, ?_⟩
  · intro k now
    exact guard_released_aux (run_cleanup_body k now) s h
  · intro s2 hb
    unfold run_cleanup_guarded
    rw [h]
    simp [hb]

/-- C7 witness: a body that raises, and the real body on scenario A. -/
theorem run_cleanup_releases_guard_witness :
    ((run_cleanup_guarded (fun st => (st, none)) init_cleaner).1).is_running
        = false ∧
    ((run_cleanup scenario_a_k8s 100 init_cleaner).1).is_running = false ∧
    run_cleanup_guarded (fun st => (st, none)) init_cleaner =
      ({ init_cleaner with cleaned_pods := [] }, .errored) :=
  ⟨(run_cleanup_releases_guard (fun st => (st, none)) init_cleaner rfl).1,
   (run_cleanup_releases_guard (fun st => (st, none)) init_cleaner rfl).2.1
     scenario_a_k8s 100,
   (run_cleanup_releases_guard (fun st => (st, none)) init_cleaner rfl).2.2
     { init_cleaner with is_running := true, cleaned_pods := [] } rfl⟩

/-! ## Claim C8 — fallback listing on filtered-fetch failure -/

/-- C8: when the field-selector listing raises, the cycle runs exactly
as it would had the filtered listing succeeded with the pods the
unfiltered fallback returns — same final state, same outcome — and the
cycle never ends in the `errored` outcome: the fetch failure neither
propagates nor prevents classification and cleanup of the fallback's
candidates. -/
theorem filtered_fetch_failure_falls_back (e : String) (ps : List Pod)
    (del : String → String → Except String Unit)
    (fl : Except String (List Pod)) (now : Nat) (s : CleanerState) :
    run_cleanup ⟨.error e, .ok ps, del⟩ now s =
      run_cleanup ⟨.ok ps, fl, del⟩ now s ∧
    (run_cleanup ⟨.error e, .ok ps, del⟩ now s).2 ≠ .errored := by
  constructor
  · rfl
  · unfold run_cleanup run_cleanup_guarded run_cleanup_body
    cases hs : s.is_running <;> simp [hs]

/-! ## Claim C9 — monitor is bounded; never-healthy exhausts and notifies -/

/-- C9: every monitor run makes at most `max_checks` pod fetches; and a
monitor with `max_checks = 3` none of whose fetches ever produces a
healthy pod performs exactly 3 checks and then sends exactly one
notification before terminating with failure. -/
theorem monitor_bounded_and_exhausts :
    (∀ (g : Nat → Option Pod) (n : Nat),
      (check_pod_health_after_restart g n).2.1 ≤ n) ∧
    (∀ g : Nat → Option Pod,
      (∀ k p, g k = some p → is_pod_healthy p = false) →
      check_pod_health_after_restart g 3 = (false, 3, 1)) := by
  constructor
  · intro g n
    unfold check_pod_health_after_restart
    cases hb : (monitor_checks g 0 n).1 <;> simp [hb, monitor_checks_le g n 0]
  · intro g h
    unfold check_pod_health_after_restart
    rw [monitor_checks_never_healthy g h 3 0]
    rfl

/-- C9 witness: the bound at an all-not-found oracle with 5 checks, and
exact exhaustion on a pod that stays in phase Pending. -/
theorem monitor_bounded_and_exhausts_witness :
    (check_pod_health_after_restart (fun _ => (none : Option Pod)) 5).2.1 ≤ 5 ∧
    check_pod_health_after_restart (fun _ => some pod_stuck) 3 =
      (false, 3, 1) :=
  ⟨monitor_bounded_and_exhausts.1 (fun _ => none) 5,
   monitor_bounded_and_exhausts.2 (fun _ => some pod_stuck)
     (fun _ p hp => by injection hp with h; rw [← h]; rfl)⟩

/-! ## Claim C10 — Running pod with no container statuses is healthy -/

/-- C10: a pod whose phase is `Running` and whose container-status list
is absent or empty is judged healthy by `_is_pod_healthy`, and a monitor
whose first fetch returns such a pod terminates Healthy on that first
check (one fetch, no notification), for any positive check budget. -/
theorem running_pod_no_statuses_healthy (pod : Pod)
    (h1 : pod.status.phase = "Running")
    (h2 : pod.status.container_statuses = none ∨
      pod.status.container_statuses = some []) :
    is_pod_healthy pod = true ∧
    ∀ (g : Nat → Option Pod) (n : Nat), g 0 = some pod →
      check_pod_health_after_restart g (n + 1) = (true, 1, 0) := by
  have hh : is_pod_healthy pod = true := by
    rcases h2 with h2 | h2 <;> simp [is_pod_healthy, h1, h2]
  refine ⟨hh, ?_⟩
  intro g n hg
  unfold check_pod_health_after_restart
  simp only [monitor_checks, hg, hh]
  rfl

/-- C10 witness: the `pod_running` fixture, budget 3. -/
theorem running_pod_no_statuses_healthy_witness :
    is_pod_healthy pod_running = true ∧
    check_pod_health_after_restart (fun _ => some pod_running) 3 =
      (true, 1, 0) :=
  ⟨(running_pod_no_statuses_healthy pod_running rfl (Or.inl rfl)).1,
   (running_pod_no_statuses_healthy pod_running rfl (Or.inl rfl)).2
     (fun _ => some pod_running) 2 rfl⟩
